import Mathlib

/-
Verification development for the mimerrust driver core (handle-lifetime and
resource-ownership layer). The Rust sources under src/mimerrust/src are
shallowly embedded: every native (FFI) call is treated as an oracle whose
integer status code is an explicit input, and each embedded operation returns
both the list of native calls it issued and the value the Rust function
returns. Machine integers are modelled as Int; the driver never exercises
i32 overflow in the embedded paths.
-/

namespace Mimerrust

/-- Native status codes are C int values (0 success, negative error, positive
success-with-info for a few calls). -/
abbrev RC := Int

/-- MIMER_SUCCESS, re-exported by common.rs (return_codes) from the generated
bindings; the whole crate compares codes against 0 through it. -/
def MIMER_SUCCESS : RC := 0

/-- Modelled from the spec: MIMER_NO_DATA comes from the generated FFI
bindings of mimerapi.h (mimerrust-sys ships only build.rs under src, the
binding file itself is generated), so its numeric value is not in the
sources. The spec describes it as the distinguished no-data status of the
fetch/scroll calls, lying in the positive success-with-info region. We fix
the representative value 100; no theorem below depends on the choice beyond
it being nonnegative and distinct from MIMER_SUCCESS. -/
def MIMER_NO_DATA : RC := 100

/-- Modelled from the spec: MIMER_SQL_NULL_VALUE also comes from the
generated bindings of mimerapi.h and is absent from src. The spec calls it
the SQL-NULL sentinel status returned by the typed getters in place of a
value. We fix the representative value 101; no theorem below depends on the
choice beyond it being distinct from MIMER_SUCCESS, from the boolean codes
0 and 1, and from the driver-local error range -26999..-26000. -/
def MIMER_SQL_NULL_VALUE : RC := 101

/-- Cursor mode options (common.rs, mimer_options::CursorMode). -/
inductive CursorMode
  | Forward
  | Scrollable
deriving DecidableEq

/-- Scroll options (common.rs, mimer_options::ScrollOption). Their to_c_int
images are the MIMER_NEXT/... binding constants; the embedding keeps the
symbolic option in the recorded native call instead of the C integer, which
the claims never inspect numerically. -/
inductive ScrollOption
  | NEXT
  | PREVIOUS
  | RELATIVE
  | ABSOLUTE
  | FIRST
  | LAST
deriving DecidableEq

/-- Liveness view of the parent chain above a Cursor or Row: whether the
weak reference to the InnerStatement still upgrades (the Statement that
created it is alive), and whether the InnerConnection behind that statement
still has strong references (InnerStatement::check_connection tests
Weak::strong_count = 0 on it, inner_statement.rs). -/
structure ParentChain where
  statementAlive : Bool
  connectionAlive : Bool
deriving DecidableEq

/-- Native calls a Cursor operation can issue (cursor.rs). -/
inductive CursorNativeCall
  | fetchScroll (opt : ScrollOption) (idx : Int)
  | fetch
  | currentRow
  | rowSize
deriving DecidableEq

/-- Row (row.rs): holds only the weak back-reference to the InnerStatement;
carries no data of its own. The model carries the liveness view of that
back-reference and of the connection behind it. -/
structure Row where
  parent : ParentChain
deriving DecidableEq

/-- InnerStatement::check_connection (inner_statement.rs): Err(-26003) when
the weak reference to the InnerConnection has no strong references left. -/
def InnerStatement.check_connection (p : ParentChain) : Except RC Unit :=
  if p.connectionAlive = false then Except.error (-26003) else Except.ok ()

/-- Cursor::scroll (cursor.rs): upgrade the weak statement reference (else
-26004), lock the handle, check_connection (else -26003), then one native
MimerFetchScroll with the current scroll option and the given index; the
status is matched against MIMER_SUCCESS (materialize a Row), MIMER_NO_DATA
(Ok(None)) and everything else (Err(code)). The oracle argument is the
status MimerFetchScroll returns when reached. -/
def Cursor.scroll (p : ParentChain) (opt : ScrollOption) (idx : Int) (code : RC) :
    List CursorNativeCall × Except RC (Option Row) :=
  if p.statementAlive = false then ([], Except.error (-26004))
  else if p.connectionAlive = false then ([], Except.error (-26003))
  else
    ([CursorNativeCall.fetchScroll opt idx],
      if code = MIMER_SUCCESS then Except.ok (some (Row.mk p))
      else if code = MIMER_NO_DATA then Except.ok none
      else Except.error code)

/-- Cursor::advance (cursor.rs, FallibleStreamingIterator impl; next_row is
advance followed by get): same liveness checks as scroll, then one native
MimerFetchScroll(MIMER_NEXT, 0) for a scrollable cursor or MimerFetch for a
forward-only one, with the same success / no-data / error trichotomy. The
returned option is the row stored in self.row, which next_row hands back. -/
def Cursor.advance (p : ParentChain) (mode : CursorMode) (code : RC) :
    List CursorNativeCall × Except RC (Option Row) :=
  if p.statementAlive = false then ([], Except.error (-26004))
  else if p.connectionAlive = false then ([], Except.error (-26003))
  else
    ((if mode = CursorMode.Scrollable then [CursorNativeCall.fetchScroll ScrollOption.NEXT 0]
      else [CursorNativeCall.fetch]),
      if code = MIMER_SUCCESS then Except.ok (some (Row.mk p))
      else if code = MIMER_NO_DATA then Except.ok none
      else Except.error code)

/-- Cursor::current_row (cursor.rs): upgrade (else -26004), check_connection
(else -26003), then native MimerCurrentRow; a negative status is an error,
anything else is returned as the row index. -/
def Cursor.current_row (p : ParentChain) (rc : RC) :
    List CursorNativeCall × Except RC Int :=
  if p.statementAlive = false then ([], Except.error (-26004))
  else if p.connectionAlive = false then ([], Except.error (-26003))
  else ([CursorNativeCall.currentRow], if rc < 0 then Except.error rc else Except.ok rc)

/-- Cursor::get_row_size (cursor.rs): upgrade the weak statement reference
(else -26004) and then call native MimerRowSize directly. Unlike scroll,
advance and current_row, the source does not call check_connection here, so
no -26003 path exists. -/
def Cursor.get_row_size (p : ParentChain) (rc : RC) :
    List CursorNativeCall × Except RC Int :=
  if p.statementAlive = false then ([], Except.error (-26004))
  else ([CursorNativeCall.rowSize], if rc < 0 then Except.error rc else Except.ok rc)

/-- Joint state of one InnerConnection and the InnerStatements created from
it (connection.rs, inner_connection.rs, inner_statement.rs). Statement
identities are the registry keys (the native statement handle cast to an
integer, inner_statement.rs statement_list_in_connection_id); a Nat id in
the model denotes one native statement handle object, so ids are never
reused across the life of a trace. Fields:
connAlive - the InnerConnection Arc still has strong references;
alive - ids of InnerStatements whose Arc is still alive;
registry - key set of the statements HashMap inside InnerConnection;
ended - log of native MimerEndStatement calls, by statement id. -/
structure DriverState where
  connAlive : Bool
  alive : List Nat
  registry : List Nat
  ended : List Nat
deriving DecidableEq

/-- Fresh connection: Connection::open yields an InnerConnection with an
empty statements HashMap (inner_connection.rs). -/
def DriverState.init : DriverState := DriverState.mk true [] [] []

/-- The lifecycle operations the application can perform that touch the
registry or end statement handles. -/
inductive DriverOp
  | prepare (id : Nat)
  | dropStmt (id : Nat)
  | dropConn
deriving DecidableEq

/-- One lifecycle step.
prepare id: Connection::prepare (connection.rs) builds the InnerStatement
(Statement::new fails with -26003 when the connection weak reference no
longer upgrades, so a dead connection leaves the state unchanged) and calls
push_statement, inserting the new identity into the registry before prepare
returns; the id of a freshly allocated native handle is new, hence the
freshness guard.
dropStmt id: Drop for InnerStatement (inner_statement.rs) runs when the last
Arc dies: when check_connection succeeds it removes the id from the registry
and issues native MimerEndStatement; on Err(-26003) it does nothing at the
native layer.
dropConn: Drop for InnerConnection (inner_connection.rs): for every weak
reference in the registry that still upgrades, issue native MimerEndStatement
via end_statement, then close the session handle (not tracked here). -/
def DriverState.step (s : DriverState) : DriverOp → DriverState
  | DriverOp.prepare id =>
      if s.connAlive = true ∧ id ∉ s.alive ∧ id ∉ s.ended then
        { s with alive := id :: s.alive, registry := id :: s.registry }
      else s
  | DriverOp.dropStmt id =>
      if id ∈ s.alive then
        if s.connAlive = true then
          { s with alive := s.alive.erase id,
                   registry := s.registry.erase id,
                   ended := s.ended ++ [id] }
        else
          { s with alive := s.alive.erase id }
      else s
  | DriverOp.dropConn =>
      if s.connAlive = true then
        { s with connAlive := false,
                 ended := s.ended ++ s.registry.filter (fun id => decide (id ∈ s.alive)) }
      else s

/-- Run a sequence of lifecycle operations from a fresh connection. -/
def DriverState.run (ops : List DriverOp) : DriverState :=
  ops.foldl DriverState.step DriverState.init

/-- Native calls a Statement-level operation can issue (statement.rs):
MimerAddBatch, one parameter-setter call per bound index (the scalar setter
arms of bind_param_auxillary: MimerSetNull/SetInt32/SetInt64/SetBoolean/
SetDouble/SetFloat), and MimerExecute. -/
inductive StmtNativeCall
  | addBatch
  | setParam (idx : Nat)
  | execute
deriving DecidableEq

/-- The user-facing Statement state that add_batch reads and writes
(statement.rs): the parameter count captured at prepare time and the
pending-batch-row flag batch_bool. -/
structure BatchStmt where
  numParameters : Nat
  batchBool : Bool
deriving DecidableEq

/-- Statement::set_params (statement.rs): binds parameters positionally,
1-based, one native setter call each, returning Err at the first setter that
reports a negative status (bind_param_auxillary maps a negative rc to Err
and anything else to Ok). bindRC gives the native status for each index;
the first argument is the next index, the second the number of parameters
still to bind. -/
def set_params (bindRC : Nat → RC) : Nat → Nat → List StmtNativeCall × Except RC Int
  | _, 0 => ([], Except.ok 0)
  | i, n + 1 =>
      if bindRC i < 0 then ([StmtNativeCall.setParam i], Except.error (bindRC i))
      else
        let rest := set_params bindRC (i + 1) n
        (StmtNativeCall.setParam i :: rest.1, rest.2)

/-- The native-call trace of a fully successful set_params pass: setParam i,
setParam (i+1), ..., n calls in total. A complete bind pass over a statement
with len parameters is paramTrace 1 len. -/
def paramTrace : Nat → Nat → List StmtNativeCall
  | _, 0 => []
  | i, n + 1 => StmtNativeCall.setParam i :: paramTrace (i + 1) n

/-- Statement::add_batch (statement.rs): take the statement handle, which
checks the connection first (-26003 when it is gone); fail with -26005 on a
null handle; fail with -26006 when the params length differs from the
declared parameter count; when batch_bool is set, commit the pending row
with one native MimerAddBatch; bind the new parameters via set_params (the
question-mark operator returns its error before batch_bool is assigned);
set batch_bool; finally classify the MimerAddBatch status (negative is Err,
zero or positive is Ok; 0 stands in when MimerAddBatch was not called).
Returns the updated statement state, the native calls issued, and the
result. -/
def Statement.add_batch (connAlive : Bool) (st : BatchStmt) (handleNull : Bool)
    (paramsLen : Nat) (addBatchRC : RC) (bindRC : Nat → RC) :
    BatchStmt × List StmtNativeCall × Except RC Int :=
  if connAlive = false then (st, [], Except.error (-26003))
  else if handleNull = true then (st, [], Except.error (-26005))
  else if st.numParameters ≠ paramsLen then (st, [], Except.error (-26006))
  else
    let pre : List StmtNativeCall := if st.batchBool then [StmtNativeCall.addBatch] else []
    let rc : RC := if st.batchBool then addBatchRC else 0
    if paramsLen ≠ 0 then
      match (set_params bindRC 1 paramsLen).2 with
      | Except.error e => (st, pre ++ (set_params bindRC 1 paramsLen).1, Except.error e)
      | Except.ok _ =>
          ({ st with batchBool := true }, pre ++ (set_params bindRC 1 paramsLen).1,
            if rc < 0 then Except.error rc else Except.ok rc)
    else
      ({ st with batchBool := true }, pre, if rc < 0 then Except.error rc else Except.ok rc)

/-- Statement::execute (statement.rs): -26005 on a null handle, otherwise
one native MimerExecute whose negative status is Err and whose zero or
positive status is Ok. It issues no MimerAddBatch. -/
def Statement.execute (handleNull : Bool) (rc : RC) :
    List StmtNativeCall × Except RC Int :=
  if handleNull = true then ([], Except.error (-26005))
  else ([StmtNativeCall.execute], if rc < 0 then Except.error rc else Except.ok rc)

/-- Iterate add_batch n times on a live connection with a non-null handle,
recording each call as (native calls issued, result). The k-th call (0-based)
gets its MimerAddBatch status from addRCs k. -/
def run_add_batches (st : BatchStmt) (paramsLen : Nat) (addRCs : Nat → RC)
    (bindRC : Nat → RC) : Nat → BatchStmt × List (List StmtNativeCall × Except RC Int)
  | 0 => (st, [])
  | n + 1 =>
      let prev := run_add_batches st paramsLen addRCs bindRC n
      let call := Statement.add_batch true prev.1 false paramsLen (addRCs n) bindRC
      (call.1, prev.2 ++ [(call.2.1, call.2.2)])

/-- Events on the Connection::execute_statement path (connection.rs):
CString::new + into_raw of the SQL text, the native MimerExecuteStatement8
call, CString::from_raw retaking the buffer to free it, and the match that
classifies the status code. -/
inductive ExecEvent
  | encodeString
  | nativeExecuteStatement
  | freeEncodingBuffer
  | classifyStatus
deriving DecidableEq

/-- Outcome of a wrapper whose match on the status code treats Less as Err,
Equal as Ok and Greater as an unconditional contract-violation abort (the
source panics there because the native call is documented never to return a
positive status). -/
inductive CallOutcome
  | ok (rc : RC)
  | err (rc : RC)
  | contractViolationPanic
deriving DecidableEq

/-- Connection::execute_statement (connection.rs): encode the SQL string
(CString::new failure is Err(-26999) before any native call), invoke native
MimerExecuteStatement8, retake the raw pointer to free the buffer
unconditionally, then classify: Ordering::Less is Err(rc), Equal is Ok(rc),
Greater panics. encodeOK is whether CString::new succeeds (the SQL text has
no interior NUL), rc the native status. -/
def Connection.execute_statement (encodeOK : Bool) (rc : RC) :
    List ExecEvent × CallOutcome :=
  if encodeOK = false then ([], CallOutcome.err (-26999))
  else
    ([ExecEvent.encodeString, ExecEvent.nativeExecuteStatement,
      ExecEvent.freeEncodingBuffer, ExecEvent.classifyStatus],
      if rc < 0 then CallOutcome.err rc
      else if rc = 0 then CallOutcome.ok rc
      else CallOutcome.contractViolationPanic)

/-- End-transaction mode options (common.rs, mimer_options). -/
inductive EndTransactionMode
  | Rollback
  | Commit
deriving DecidableEq

/-- Native calls on the transaction path (transaction.rs): one
MimerEndTransaction per end_transaction invocation, tagged with its mode. -/
inductive TransEvent
  | endTransaction (mode : EndTransactionMode)
deriving DecidableEq

/-- Transaction::end_transaction (transaction.rs): one native
MimerEndTransaction with the given mode; Ordering::Greater panics, Equal is
Ok(rc), Less is Err(rc). -/
def Transaction.end_transaction (mode : EndTransactionMode) (rc : RC) :
    List TransEvent × CallOutcome :=
  ([TransEvent.endTransaction mode],
    if rc < 0 then CallOutcome.err rc
    else if rc = 0 then CallOutcome.ok rc
    else CallOutcome.contractViolationPanic)

/-- What the Drop impl of a value can observably do: return normally or
panic out of the destructor. -/
inductive DropOutcome
  | returned
  | panicked
deriving DecidableEq

/-- Drop for Transaction (transaction.rs): end_transaction in Rollback mode
with the Result discarded through .ok(); an Err value is swallowed, but the
contract-violation panic inside end_transaction still escapes the
destructor. -/
def Transaction.drop (rc : RC) : List TransEvent × DropOutcome :=
  let e := Transaction.end_transaction EndTransactionMode.Rollback rc
  (e.1,
    match e.2 with
    | CallOutcome.contractViolationPanic => DropOutcome.panicked
    | _ => DropOutcome.returned)

/-- Transaction::commit (transaction.rs): end_transaction in Commit mode;
commit takes self by value, so when it returns the Transaction is dropped
and Drop for Transaction runs with its own native MimerEndTransaction in
Rollback mode. rc1 is the native status of the explicit call, rc2 that of
the Drop-time call. Returns the full native trace of the consumed value,
the value commit returns, and the destructor outcome. -/
def Transaction.commit (rc1 rc2 : RC) :
    List TransEvent × CallOutcome × DropOutcome :=
  let e := Transaction.end_transaction EndTransactionMode.Commit rc1
  let d := Transaction.drop rc2
  (e.1 ++ d.1, e.2, d.2)

/-- Transaction::rollback (transaction.rs): end_transaction in Rollback
mode; like commit it consumes self, so Drop runs afterwards with a second
Rollback-mode native call. -/
def Transaction.rollback (rc1 rc2 : RC) :
    List TransEvent × CallOutcome × DropOutcome :=
  let e := Transaction.end_transaction EndTransactionMode.Rollback rc1
  let d := Transaction.drop rc2
  (e.1 ++ d.1, e.2, d.2)

/-- The tagged interchange value (types.rs, MimerDatatype). Constructor
names follow the source variants Null, BigInt, Int, Double, Real, String,
Bool, BinaryArray, with a V suffix where the source name collides with a
Lean type. Floating payloads are carried as IEEE bit patterns (Nat); the
embedded paths never interpret them arithmetically. The borrow-side
variants StringRef and BinaryArrayRef only occur on the bind path, which
the fetch claims do not touch, and are omitted. -/
inductive MimerDatatype
  | Null
  | BigInt (v : Int)
  | IntV (v : Int)
  | DoubleV (bits : Nat)
  | RealV (bits : Nat)
  | StringV (s : String)
  | BoolV (b : Bool)
  | BinaryArray (bytes : List Nat)
deriving DecidableEq

/-- Little-endian byte list to bit pattern, as f32::from_le_bytes uses it in
the FromSql impl for f32 (types.rs). -/
def le_bytes_to_bits (l : List Nat) : Nat :=
  l.foldr (fun b acc => acc * 256 + b) 0

/-- FromSql for i32 (types.rs): only the Int variant converts; everything
else, including Null, is Err(-26200), the unsupported-type-conversion
code. -/
def i32.from_sql : MimerDatatype → Except RC Int
  | MimerDatatype.IntV v => Except.ok v
  | _ => Except.error (-26200)

/-- FromSql for i64 (types.rs): only the BigInt variant converts. -/
def i64.from_sql : MimerDatatype → Except RC Int
  | MimerDatatype.BigInt v => Except.ok v
  | _ => Except.error (-26200)

/-- FromSql for f32 (types.rs): the Real variant converts directly; a
BinaryArray of exactly 4 bytes converts through from_le_bytes; everything
else is Err(-26200). -/
def f32.from_sql : MimerDatatype → Except RC Nat
  | MimerDatatype.RealV bits => Except.ok bits
  | MimerDatatype.BinaryArray l =>
      if l.length ≠ 4 then Except.error (-26200)
      else Except.ok (le_bytes_to_bits l)
  | _ => Except.error (-26200)

/-- FromSql for f64 (types.rs): only the Double variant converts. -/
def f64.from_sql : MimerDatatype → Except RC Nat
  | MimerDatatype.DoubleV bits => Except.ok bits
  | _ => Except.error (-26200)

/-- FromSql for bool (types.rs): only the Bool variant converts. -/
def bool.from_sql : MimerDatatype → Except RC Bool
  | MimerDatatype.BoolV b => Except.ok b
  | _ => Except.error (-26200)

/-- The native column-type tag together with the native getter response for
one (current row, column) read, covering the get_type arms the null-handling
claim names (row.rs): the big-integer arm (MimerGetInt64), the small-integer
arm (MimerGetInt32), the real arm (MimerGetFloat), the double arm
(MimerGetDouble) and the boolean arm (MimerGetBoolean, whose value travels
in the return code itself). rc is the status the getter returns, val or
bits the out-parameter it fills on success. -/
inductive ColumnRead
  | bigIntCol (rc : RC) (val : Int)
  | smallIntCol (rc : RC) (val : Int)
  | realCol (rc : RC) (bits : Nat)
  | doubleCol (rc : RC) (bits : Nat)
  | boolCol (rc : RC)
deriving DecidableEq

/-- Row::get_type (row.rs) on the covered arms: upgrade the weak statement
reference (else -26004), lock the handle, check_connection (else -26003),
query the column type tag (assumed valid here: the claims never feed a
negative tag) and dispatch. In each typed arm a status of 0 yields the
typed value, a status equal to MIMER_SQL_NULL_VALUE yields Ok(Null), and
any other status is Err(status); the boolean arm additionally maps 1 to
Bool(true) and 0 to Bool(false) before testing the sentinel. -/
def Row.get_type (r : Row) (col : ColumnRead) : Except RC MimerDatatype :=
  if r.parent.statementAlive = false then Except.error (-26004)
  else if r.parent.connectionAlive = false then Except.error (-26003)
  else
    match col with
    | ColumnRead.bigIntCol rc val =>
        if rc = 0 then Except.ok (MimerDatatype.BigInt val)
        else if rc = MIMER_SQL_NULL_VALUE then Except.ok MimerDatatype.Null
        else Except.error rc
    | ColumnRead.smallIntCol rc val =>
        if rc = 0 then Except.ok (MimerDatatype.IntV val)
        else if rc = MIMER_SQL_NULL_VALUE then Except.ok MimerDatatype.Null
        else Except.error rc
    | ColumnRead.realCol rc bits =>
        if rc = 0 then Except.ok (MimerDatatype.RealV bits)
        else if rc = MIMER_SQL_NULL_VALUE then Except.ok MimerDatatype.Null
        else Except.error rc
    | ColumnRead.doubleCol rc bits =>
        if rc = 0 then Except.ok (MimerDatatype.DoubleV bits)
        else if rc = MIMER_SQL_NULL_VALUE then Except.ok MimerDatatype.Null
        else Except.error rc
    | ColumnRead.boolCol rc =>
        if rc = 1 then Except.ok (MimerDatatype.BoolV true)
        else if rc = 0 then Except.ok (MimerDatatype.BoolV false)
        else if rc = MIMER_SQL_NULL_VALUE then Except.ok MimerDatatype.Null
        else Except.error rc

/-- Row::get (row.rs), generic over the FromSql conversion of the requested
host type: call get_type; on Ok ask the host type to convert, wrapping a
successful conversion in Some; on Err compare the code against
MIMER_SQL_NULL_VALUE, collapsing exactly that code to Ok(None) and
propagating every other error. -/
def Row.get (from_sql : MimerDatatype → Except RC α) (r : Row) (col : ColumnRead) :
    Except RC (Option α) :=
  match Row.get_type r col with
  | Except.ok v =>
      match from_sql v with
      | Except.ok x => Except.ok (some x)
      | Except.error e => Except.error e
  | Except.error err =>
      if err = MIMER_SQL_NULL_VALUE then Except.ok none else Except.error err

/-- Row::is_null (row.rs): upgrade (else -26004), check_connection (else
-26003), then native MimerIsNull whose positive status is Ok(true), zero is
Ok(false) and negative is Err. rc is the native status. -/
def Row.is_null (r : Row) (rc : RC) : Except RC Bool :=
  if r.parent.statementAlive = false then Except.error (-26004)
  else if r.parent.connectionAlive = false then Except.error (-26003)
  else if 0 < rc then Except.ok true
  else if rc = 0 then Except.ok false
  else Except.error rc

/-- Inductive invariant of the lifecycle state machine: alive statement ids
and the native end-statement log are duplicate-free; while the connection is
alive the registry coincides with the alive set (P3) and no alive statement
has had its native handle ended yet (so the eventual end is the first). -/
structure DriverInv (s : DriverState) : Prop where
  alive_nodup : s.alive.Nodup
  ended_nodup : s.ended.Nodup
  reg_eq : s.connAlive = true → s.registry = s.alive
  ended_not_alive : s.connAlive = true → ∀ id ∈ s.ended, id ∉ s.alive

/-- The fresh connection state satisfies the invariant. -/
theorem driverInv_init : DriverInv DriverState.init := by
  refine ⟨List.nodup_nil, List.nodup_nil, fun _ => rfl, fun _ id hid => ?_⟩
  simp [DriverState.init] at hid

/-- Every lifecycle step preserves the invariant. -/
theorem driverInv_step (s : DriverState) (op : DriverOp) (h : DriverInv s) :
    DriverInv (DriverState.step s op) := by
  cases op with
  | prepare id =>
      by_cases hg : s.connAlive = true ∧ id ∉ s.alive ∧ id ∉ s.ended
      · obtain ⟨hc, hna, hne⟩ := hg
        rw [DriverState.step, if_pos ⟨hc, hna, hne⟩]
        refine ⟨List.nodup_cons.mpr ⟨hna, h.alive_nodup⟩, h.ended_nodup, ?_, ?_⟩
        · intro _; rw [h.reg_eq hc]
        · intro _ j hj
          simp only [List.mem_cons, not_or]
          exact ⟨fun hji => hne (hji ▸ hj), h.ended_not_alive hc j hj⟩
      · rw [DriverState.step, if_neg hg]; exact h
  | dropStmt id =>
      by_cases hmem : id ∈ s.alive
      · by_cases hc : s.connAlive = true
        · rw [DriverState.step, if_pos hmem, if_pos hc]
          refine ⟨h.alive_nodup.erase id, ?_, ?_, ?_⟩
          · refine List.nodup_append.mpr ⟨h.ended_nodup, List.nodup_singleton id, ?_⟩
            intro a ha hb
            rw [List.mem_singleton] at hb
            exact h.ended_not_alive hc a ha (hb ▸ hmem)
          · intro _; rw [h.reg_eq hc]
          · intro _ j hj
            rcases List.mem_append.mp hj with hj1 | hj2
            · exact fun hje => h.ended_not_alive hc j hj1 (List.mem_of_mem_erase hje)
            · rw [List.mem_singleton] at hj2
              subst hj2
              exact h.alive_nodup.not_mem_erase
        · rw [DriverState.step, if_pos hmem, if_neg hc]
          refine ⟨h.alive_nodup.erase id, h.ended_nodup, ?_, ?_⟩
          · intro hcc; exact absurd hcc hc
          · intro hcc; exact absurd hcc hc
      · rw [DriverState.step, if_neg hmem]; exact h
  | dropConn =>
      by_cases hc : s.connAlive = true
      · rw [DriverState.step, if_pos hc]
        refine ⟨h.alive_nodup, ?_, ?_, ?_⟩
        · refine List.nodup_append.mpr ⟨h.ended_nodup, ?_, ?_⟩
          · rw [h.reg_eq hc]; exact h.alive_nodup.filter _
          · intro a ha hb
            have hmem : a ∈ s.alive := by
              have := List.of_mem_filter hb
              simpa using this
            exact h.ended_not_alive hc a ha hmem
        · intro hcc; simp at hcc
        · intro hcc; simp at hcc
      · rw [DriverState.step, if_neg hc]; exact h

/-- Folding the step function from an invariant state stays invariant. -/
theorem driverInv_foldl (ops : List DriverOp) :
    ∀ s : DriverState, DriverInv s → DriverInv (ops.foldl DriverState.step s) := by
  induction ops with
  | nil => intro s h; exact h
  | cons op rest ih => intro s h; exact ih _ (driverInv_step s op h)

/-- Every reachable lifecycle state satisfies the invariant. -/
theorem driverInv_run (ops : List DriverOp) : DriverInv (DriverState.run ops) :=
  driverInv_foldl ops DriverState.init driverInv_init

/-- C2 (confirmed). After any sequence of lifecycle operations that leaves a
Statement with id alive on a live Session, tearing the Session down (Drop
for InnerConnection) ends that native statement handle exactly once, and the
subsequent drop of the orphaned Statement issues no further native
end-statement call: the end-statement log is unchanged by the orphaned drop
of inner_statement.rs, whose check_connection returns -26003 and skips the
native layer. -/
theorem c2_exactly_once_teardown (ops : List DriverOp) (id : Nat)
    (hAlive : id ∈ (DriverState.run ops).alive)
    (hConn : (DriverState.run ops).connAlive = true) :
    ((DriverState.run ops).step DriverOp.dropConn).ended.count id = 1 ∧
    (((DriverState.run ops).step DriverOp.dropConn).step (DriverOp.dropStmt id)).ended =
      ((DriverState.run ops).step DriverOp.dropConn).ended := by
  have hi := driverInv_run ops
  set s := DriverState.run ops with hs
  have hstep : s.step DriverOp.dropConn =
      { s with connAlive := false,
               ended := s.ended ++ s.registry.filter (fun j => decide (j ∈ s.alive)) } := by
    rw [DriverState.step, if_pos hConn]
  have hfilter : s.registry.filter (fun j => decide (j ∈ s.alive)) = s.alive := by
    rw [hi.reg_eq hConn]
    exact List.filter_eq_self.mpr (fun a ha => decide_eq_true ha)
  constructor
  · rw [hstep]
    show (s.ended ++ s.registry.filter (fun j => decide (j ∈ s.alive))).count id = 1
    rw [List.count_append, hfilter]
    have h0 : s.ended.count id = 0 :=
      List.count_eq_zero.mpr (fun hmem => hi.ended_not_alive hConn id hmem hAlive)
    have h1 : s.alive.count id = 1 := List.count_eq_one_of_mem hi.alive_nodup hAlive
    rw [h0, h1]
  · rw [hstep]
    by_cases hmem : id ∈ s.alive <;>
      simp [DriverState.step, hmem]

/-- Witness for c2_exactly_once_teardown: prepare one statement, drop the
connection, then drop the orphaned statement. -/
theorem c2_exactly_once_teardown_witness :
    ((DriverState.run [DriverOp.prepare 5]).step DriverOp.dropConn).ended.count 5 = 1 ∧
    (((DriverState.run [DriverOp.prepare 5]).step DriverOp.dropConn).step
        (DriverOp.dropStmt 5)).ended =
      ((DriverState.run [DriverOp.prepare 5]).step DriverOp.dropConn).ended :=
  c2_exactly_once_teardown [DriverOp.prepare 5] 5 (by decide) (by decide)

/-- C3 (confirmed). At every observable point with the connection alive, the
statement registry of the Session equals the set of currently alive
Statements created from it, entry for entry, hence also in count:
Connection::prepare registers the new identity via push_statement before
returning, and Drop for InnerStatement removes exactly its own identity
while the Session lives. -/
theorem c3_registry_consistency (ops : List DriverOp)
    (h : (DriverState.run ops).connAlive = true) :
    (DriverState.run ops).registry = (DriverState.run ops).alive ∧
    (DriverState.run ops).registry.length = (DriverState.run ops).alive.length := by
  have hi := driverInv_run ops
  exact ⟨hi.reg_eq h, by rw [hi.reg_eq h]⟩

/-- Witness for c3_registry_consistency: two prepares and one statement
drop. -/
theorem c3_registry_consistency_witness :
    (DriverState.run [DriverOp.prepare 5, DriverOp.prepare 7, DriverOp.dropStmt 5]).registry =
      (DriverState.run [DriverOp.prepare 5, DriverOp.prepare 7, DriverOp.dropStmt 5]).alive ∧
    (DriverState.run [DriverOp.prepare 5, DriverOp.prepare 7, DriverOp.dropStmt 5]).registry.length =
      (DriverState.run [DriverOp.prepare 5, DriverOp.prepare 7, DriverOp.dropStmt 5]).alive.length :=
  c3_registry_consistency [DriverOp.prepare 5, DriverOp.prepare 7, DriverOp.dropStmt 5] (by decide)

/-- C1 (counterexample). With the parent Statement still alive but the
parent Connection already dropped, Cursor::get_row_size does not return the
connection-dropped error -26003: it issues the native MimerRowSize call and
returns its value, because the source omits the check_connection step that
scroll, advance and current_row perform. -/
theorem c1_counterexample :
    (Cursor.get_row_size (ParentChain.mk true false) 16).1 = [CursorNativeCall.rowSize] ∧
    (Cursor.get_row_size (ParentChain.mk true false) 16).2 = Except.ok 16 :=
  ⟨rfl, rfl⟩

/-- C1 (amended). Cursor::scroll, Cursor::advance (next_row) and
Cursor::current_row re-validate the whole parent chain before any native
call: whenever the Statement or the Connection is gone they issue no native
call and return -26004 (statement dropped, checked first) or -26003
(connection dropped). Cursor::get_row_size only re-validates the Statement:
it returns -26004 without a native call when the Statement is gone, but does
not re-check the Connection. -/
theorem c1_parent_revalidation (p : ParentChain) (opt : ScrollOption) (idx : Int)
    (mode : CursorMode) (rc : RC)
    (h : p.statementAlive = false ∨ p.connectionAlive = false) :
    (Cursor.scroll p opt idx rc =
      ([], Except.error (if p.statementAlive then -26003 else -26004)))
  ∧ (Cursor.advance p mode rc =
      ([], Except.error (if p.statementAlive then -26003 else -26004)))
  ∧ (Cursor.current_row p rc =
      ([], Except.error (if p.statementAlive then -26003 else -26004)))
  ∧ (p.statementAlive = false →
      Cursor.get_row_size p rc = ([], Except.error (-26004))) := by
  rcases p with ⟨sa, ca⟩
  cases sa <;> cases ca <;>
    simp_all [Cursor.scroll, Cursor.advance, Cursor.current_row, Cursor.get_row_size]

/-- Witness for c1_parent_revalidation: a dropped connection under a live
statement, and a dropped statement. -/
theorem c1_parent_revalidation_witness :
    Cursor.scroll (ParentChain.mk true false) ScrollOption.NEXT 0 0 =
      ([], Except.error (-26003)) ∧
    Cursor.get_row_size (ParentChain.mk false false) 0 = ([], Except.error (-26004)) := by
  have h1 := c1_parent_revalidation (ParentChain.mk true false) ScrollOption.NEXT 0
    CursorMode.Forward 0 (Or.inr rfl)
  have h2 := c1_parent_revalidation (ParentChain.mk false false) ScrollOption.NEXT 0
    CursorMode.Forward 0 (Or.inl rfl)
  exact ⟨by simpa using h1.1, h2.2.2.2 rfl⟩

/-- C7 (counterexample). The native status 1 is neither negative nor the
no-data status, yet Cursor::scroll and Cursor::advance return Err(1) for it
rather than materializing a Row: only the exact success status 0 produces a
Row. -/
theorem c7_counterexample :
    (1 : RC) ≠ MIMER_NO_DATA ∧ ¬ ((1 : RC) < 0) ∧
    (Cursor.scroll (ParentChain.mk true true) ScrollOption.NEXT 0 1).2 = Except.error 1 ∧
    (Cursor.advance (ParentChain.mk true true) CursorMode.Forward 1).2 = Except.error 1 :=
  ⟨by decide, by decide, rfl, rfl⟩

/-- C7 (amended). For a live parent chain, the fetch/scroll status behind
Cursor::scroll and Cursor::advance is classified as: the success status
MIMER_SUCCESS materializes a new Row and yields Ok(Some(row)); the
distinguished no-data status yields Ok(None); every other status, negative
or positive, yields Err(code). -/
theorem c7_status_trichotomy (p : ParentChain) (opt : ScrollOption) (idx : Int)
    (mode : CursorMode) (code : RC)
    (hs : p.statementAlive = true) (hc : p.connectionAlive = true) :
    (code = MIMER_SUCCESS →
        (Cursor.scroll p opt idx code).2 = Except.ok (some (Row.mk p))
      ∧ (Cursor.advance p mode code).2 = Except.ok (some (Row.mk p)))
  ∧ (code = MIMER_NO_DATA →
        (Cursor.scroll p opt idx code).2 = Except.ok none
      ∧ (Cursor.advance p mode code).2 = Except.ok none)
  ∧ (code ≠ MIMER_SUCCESS → code ≠ MIMER_NO_DATA →
        (Cursor.scroll p opt idx code).2 = Except.error code
      ∧ (Cursor.advance p mode code).2 = Except.error code) := by
  refine ⟨?_, ?_, ?_⟩
  · intro h
    constructor <;> simp [Cursor.scroll, Cursor.advance, hs, hc, h]
  · intro h
    have hne : MIMER_NO_DATA ≠ MIMER_SUCCESS := by decide
    constructor <;> simp [Cursor.scroll, Cursor.advance, hs, hc, h, hne]
  · intro h1 h2
    constructor <;> simp [Cursor.scroll, Cursor.advance, hs, hc, h1, h2]

/-- Witness for c7_status_trichotomy: a live chain with the no-data status
and with a plain negative error status. -/
theorem c7_status_trichotomy_witness :
    (Cursor.scroll (ParentChain.mk true true) ScrollOption.NEXT 0 MIMER_NO_DATA).2 =
      Except.ok none ∧
    (Cursor.scroll (ParentChain.mk true true) ScrollOption.NEXT 0 (-5)).2 =
      Except.error (-5) := by
  have h1 := c7_status_trichotomy (ParentChain.mk true true) ScrollOption.NEXT 0
    CursorMode.Forward MIMER_NO_DATA rfl rfl
  have h2 := c7_status_trichotomy (ParentChain.mk true true) ScrollOption.NEXT 0
    CursorMode.Forward (-5) rfl rfl
  exact ⟨(h1.2.1 rfl).1, (h2.2.2 (by decide) (by decide)).1⟩

/-- C4 (code bug, evaluated at the failing input). Fetching a column whose
stored value is SQL NULL: Row::is_null reports Ok(true) (native MimerIsNull
positive), but Row::get does not collapse the SQL-NULL sentinel to Ok(None)
for the integer, float and boolean host types: get_type maps the sentinel
status of the typed getter to Ok(MimerDatatype::Null), and the FromSql
conversion of each of these types rejects the Null variant with Err(-26200),
the unsupported-type-conversion code, contradicting the claim and the doc
comment of Row::get, which promises Ok(None) on a null fetch. -/
theorem c4_null_fetch_returns_error :
    Row.is_null (Row.mk (ParentChain.mk true true)) 1 = Except.ok true
  ∧ Row.get i32.from_sql (Row.mk (ParentChain.mk true true))
      (ColumnRead.smallIntCol MIMER_SQL_NULL_VALUE 0) = Except.error (-26200)
  ∧ Row.get i64.from_sql (Row.mk (ParentChain.mk true true))
      (ColumnRead.bigIntCol MIMER_SQL_NULL_VALUE 0) = Except.error (-26200)
  ∧ Row.get f32.from_sql (Row.mk (ParentChain.mk true true))
      (ColumnRead.realCol MIMER_SQL_NULL_VALUE 0) = Except.error (-26200)
  ∧ Row.get f64.from_sql (Row.mk (ParentChain.mk true true))
      (ColumnRead.doubleCol MIMER_SQL_NULL_VALUE 0) = Except.error (-26200)
  ∧ Row.get bool.from_sql (Row.mk (ParentChain.mk true true))
      (ColumnRead.boolCol MIMER_SQL_NULL_VALUE) = Except.error (-26200) :=
  ⟨rfl, rfl, rfl, rfl, rfl, rfl⟩

/-- C6 (confirmed). Statement::add_batch on a live connection with a
non-null handle and a params slice whose length differs from the declared
parameter count fails with the dedicated wrong-parameter-count error -26006,
issues no native call and leaves the statement state, in particular the
pending-batch-row flag, unchanged. -/
theorem c6_add_batch_wrong_count (st : BatchStmt) (paramsLen : Nat) (addRC : RC)
    (bindRC : Nat → RC) (h : st.numParameters ≠ paramsLen) :
    Statement.add_batch true st false paramsLen addRC bindRC =
      (st, [], Except.error (-26006)) := by
  simp [Statement.add_batch, h]

/-- Witness for c6_add_batch_wrong_count: two declared parameters, one
supplied. -/
theorem c6_add_batch_wrong_count_witness :
    Statement.add_batch true (BatchStmt.mk 2 false) false 1 0 (fun _ => 0) =
      (BatchStmt.mk 2 false, [], Except.error (-26006)) :=
  c6_add_batch_wrong_count (BatchStmt.mk 2 false) 1 0 (fun _ => 0) (by decide)

/-- C8 (confirmed). Connection::execute_statement encodes the SQL text,
invokes the native execute, frees the encoding buffer unconditionally before
the status is classified (the fixed event order below), and classifies the
status: negative is Err(rc), zero is Ok(rc), and a strictly positive status
is the unconditional contract-violation panic, never a normal return. -/
theorem c8_execute_statement_classification (rc : RC) :
    ((Connection.execute_statement true rc).1 =
      [ExecEvent.encodeString, ExecEvent.nativeExecuteStatement,
       ExecEvent.freeEncodingBuffer, ExecEvent.classifyStatus])
  ∧ (rc < 0 → (Connection.execute_statement true rc).2 = CallOutcome.err rc)
  ∧ (rc = 0 → (Connection.execute_statement true rc).2 = CallOutcome.ok rc)
  ∧ (0 < rc → (Connection.execute_statement true rc).2 =
      CallOutcome.contractViolationPanic) := by
  refine ⟨by simp [Connection.execute_statement], ?_, ?_, ?_⟩
  · intro h; simp [Connection.execute_statement, h]
  · intro h; simp [Connection.execute_statement, h]
  · intro h
    have hne : rc ≠ 0 := fun hz => absurd (hz ▸ h) (lt_irrefl 0)
    simp [Connection.execute_statement, not_lt.mpr h.le, hne]

/-- Witness for c8_execute_statement_classification: one status from each
classification region. -/
theorem c8_execute_statement_classification_witness :
    (Connection.execute_statement true (-7)).2 = CallOutcome.err (-7) ∧
    (Connection.execute_statement true 0).2 = CallOutcome.ok 0 ∧
    (Connection.execute_statement true 3).2 = CallOutcome.contractViolationPanic :=
  ⟨(c8_execute_statement_classification (-7)).2.1 (by decide),
   (c8_execute_statement_classification 0).2.2.1 rfl,
   (c8_execute_statement_classification 3).2.2.2 (by decide)⟩

/-- C9 (confirmed). A Transaction dropped without an explicit commit or
rollback issues exactly one native MimerEndTransaction, in Rollback mode,
whatever the native status is. commit and rollback take self by value in the
source, so the value cannot be used afterwards; in the model their complete
end-of-life traces open with the explicit call of the requested mode and
close with the destructor, after which nothing else can happen to the
value. -/
theorem c9_transaction_rollback_on_drop (rc rc1 rc2 : RC) :
    (Transaction.drop rc).1 = [TransEvent.endTransaction EndTransactionMode.Rollback]
  ∧ (Transaction.commit rc1 rc2).1.head? =
      some (TransEvent.endTransaction EndTransactionMode.Commit)
  ∧ (Transaction.rollback rc1 rc2).1.head? =
      some (TransEvent.endTransaction EndTransactionMode.Rollback) :=
  ⟨rfl, rfl, rfl⟩

/-- C10 (counterexample). Transaction teardown is not panic-free: when the
native MimerEndTransaction issued by Drop for Transaction returns a strictly
positive status, end_transaction hits its contract-violation panic before
the .ok() can discard anything, so the destructor panics. -/
theorem c10_counterexample : (Transaction.drop 1).2 = DropOutcome.panicked := rfl

/-- C10 (amended). For every explicitly ended Transaction the native
end-transaction routine runs exactly twice: the explicit commit or rollback
call, then the Drop impl issuing a second call in Rollback mode against the
same session. As long as the Drop-time status is not a (contract-violating)
positive value, the destructor silently discards any error through .ok() and
returns without panicking, unlike the Session, Statement and Cursor
teardowns, which panic on unexpected errors. -/
theorem c10_double_end_transaction (rc1 rc2 : RC) (h : rc2 ≤ 0) :
    (Transaction.commit rc1 rc2).1 =
      [TransEvent.endTransaction EndTransactionMode.Commit,
       TransEvent.endTransaction EndTransactionMode.Rollback]
  ∧ (Transaction.rollback rc1 rc2).1 =
      [TransEvent.endTransaction EndTransactionMode.Rollback,
       TransEvent.endTransaction EndTransactionMode.Rollback]
  ∧ (Transaction.commit rc1 rc2).2.2 = DropOutcome.returned
  ∧ (Transaction.rollback rc1 rc2).2.2 = DropOutcome.returned := by
  have h2 : rc2 < 0 ∨ rc2 = 0 := lt_or_eq_of_le h
  refine ⟨rfl, rfl, ?_, ?_⟩ <;>
    rcases h2 with h2 | h2 <;>
      simp [Transaction.commit, Transaction.rollback, Transaction.drop,
        Transaction.end_transaction, h2]

/-- Witness for c10_double_end_transaction: a successful explicit call and a
sequence-error status on the Drop-time call. -/
theorem c10_double_end_transaction_witness :
    (Transaction.commit 0 (-24101)).1 =
      [TransEvent.endTransaction EndTransactionMode.Commit,
       TransEvent.endTransaction EndTransactionMode.Rollback]
  ∧ (Transaction.rollback 0 (-24101)).1 =
      [TransEvent.endTransaction EndTransactionMode.Rollback,
       TransEvent.endTransaction EndTransactionMode.Rollback]
  ∧ (Transaction.commit 0 (-24101)).2.2 = DropOutcome.returned
  ∧ (Transaction.rollback 0 (-24101)).2.2 = DropOutcome.returned :=
  c10_double_end_transaction 0 (-24101) (by decide)

/-- When every native setter succeeds, set_params issues one setter call per
parameter, in index order, and returns Ok(0). -/
theorem set_params_success (bindRC : Nat → RC) (hbind : ∀ j, 0 ≤ bindRC j) :
    ∀ n i, set_params bindRC i n = (paramTrace i n, Except.ok 0) := by
  intro n
  induction n with
  | zero => intro i; rfl
  | succ m ih =>
      intro i
      have hnn : ¬ bindRC i < 0 := not_lt.mpr (hbind i)
      simp [set_params, if_neg hnn, ih (i + 1), paramTrace]

/-- A fully successful add_batch call on a live connection with a non-null
handle and the matching parameter count: when the pending flag is set it
first issues MimerAddBatch and then the binds, otherwise only the binds;
either way the flag is set afterwards and the result is Ok. -/
theorem add_batch_success (numP : Nat) (b : Bool) (addRC : RC) (bindRC : Nat → RC)
    (haddnn : 0 ≤ addRC) (hbind : ∀ j, 0 ≤ bindRC j) :
    Statement.add_batch true (BatchStmt.mk numP b) false numP addRC bindRC =
      (BatchStmt.mk numP true,
       (if b then [StmtNativeCall.addBatch] else []) ++ paramTrace 1 numP,
       Except.ok (if b then addRC else 0)) := by
  by_cases hz : numP = 0
  · subst hz
    cases b <;>
      simp [Statement.add_batch, paramTrace, not_lt.mpr haddnn]
  · cases b <;>
      simp [Statement.add_batch, hz, set_params_success bindRC hbind numP 1,
        not_lt.mpr haddnn]

/-- Full characterization of n add_batch calls from a fresh statement whose
native add-batch and setter statuses are all nonnegative: the pending flag
is set from the first call on, call 0 issues only the binds and returns
Ok(0), and every later call i issues MimerAddBatch first, then the binds,
returning Ok of its MimerAddBatch status. -/
theorem run_add_batches_spec (numP : Nat) (addRCs bindRC : Nat → RC)
    (hadd : ∀ j, 0 ≤ addRCs j) (hbind : ∀ j, 0 ≤ bindRC j) :
    ∀ n, run_add_batches (BatchStmt.mk numP false) numP addRCs bindRC n =
      (BatchStmt.mk numP (decide (0 < n)),
        (List.range n).map (fun i =>
          ((if i = 0 then ([] : List StmtNativeCall) else [StmtNativeCall.addBatch]) ++
              paramTrace 1 numP,
            Except.ok (if i = 0 then (0 : Int) else addRCs i)))) := by
  intro n
  induction n with
  | zero => rfl
  | succ m ih =>
      rw [run_add_batches, ih]
      cases m with
      | zero =>
          simp [add_batch_success numP false (addRCs 0) bindRC (hadd 0) hbind,
            List.range_succ]
      | succ k =>
          simp [add_batch_success numP true (addRCs (k + 1)) bindRC (hadd (k + 1)) hbind,
            List.range_succ]

/-- paramTrace never contains the MimerAddBatch call. -/
theorem paramTrace_count_addBatch :
    ∀ n i, (paramTrace i n).count StmtNativeCall.addBatch = 0 := by
  intro n
  induction n with
  | zero => intro i; rfl
  | succ m ih =>
      intro i
      rw [paramTrace, List.count_cons, ih (i + 1)]
      rfl

/-- Summing one per call except the first over n calls gives n - 1. -/
theorem sum_range_skip_first :
    ∀ n : Nat, ((List.range n).map (fun i => if i = 0 then 0 else 1)).sum = n - 1 := by
  intro n
  induction n with
  | zero => rfl
  | succ m ih =>
      rw [List.range_succ, List.map_append, List.sum_append, ih]
      cases m with
      | zero => rfl
      | succ k => simp

/-- C5 (confirmed). For N successful add_batch calls on a fresh statement
(all native statuses nonnegative, parameter count matching) followed by one
execute: every call returns Ok; the native MimerAddBatch routine runs
exactly N - 1 times in total; the first call issues only the binds (no
MimerAddBatch, it just sets the pending flag); every subsequent call issues
MimerAddBatch first, committing the pending row before binding the next
rows parameters; and execute issues no MimerAddBatch for the final pending
row. -/
theorem c5_add_batch_invocation_count (numP N : Nat) (addRCs bindRC : Nat → RC)
    (hadd : ∀ j, 0 ≤ addRCs j) (hbind : ∀ j, 0 ≤ bindRC j) (hN : 1 ≤ N) :
    (∀ call ∈ (run_add_batches (BatchStmt.mk numP false) numP addRCs bindRC N).2,
        ∃ v, call.2 = Except.ok v)
  ∧ (((run_add_batches (BatchStmt.mk numP false) numP addRCs bindRC N).2.map
        (fun call => call.1.count StmtNativeCall.addBatch)).sum = N - 1)
  ∧ ((run_add_batches (BatchStmt.mk numP false) numP addRCs bindRC N).2.head? =
        some (paramTrace 1 numP, Except.ok 0))
  ∧ (∀ i, 1 ≤ i → i < N →
        (run_add_batches (BatchStmt.mk numP false) numP addRCs bindRC N).2.get? i =
          some (StmtNativeCall.addBatch :: paramTrace 1 numP, Except.ok (addRCs i)))
  ∧ ((Statement.execute false 0).1.count StmtNativeCall.addBatch = 0) := by
  have hspec := run_add_batches_spec numP addRCs bindRC hadd hbind N
  refine ⟨?_, ?_, ?_, ?_, rfl⟩
  · rw [hspec]
    intro call hcall
    simp only [List.mem_map] at hcall
    obtain ⟨i, _, rfl⟩ := hcall
    exact ⟨_, rfl⟩
  · rw [hspec, List.map_map]
    have hmap : (List.range N).map
        ((fun call : List StmtNativeCall × Except RC Int =>
            call.1.count StmtNativeCall.addBatch) ∘
          (fun i =>
            ((if i = 0 then ([] : List StmtNativeCall) else [StmtNativeCall.addBatch]) ++
                paramTrace 1 numP,
              Except.ok (if i = 0 then (0 : Int) else addRCs i)))) =
        (List.range N).map (fun i => if i = 0 then 0 else 1) := by
      apply List.map_congr_left
      intro i _
      by_cases hi : i = 0 <;>
        simp [hi, Function.comp, List.count_append, paramTrace_count_addBatch]
    rw [hmap, sum_range_skip_first]
  · rw [hspec]
    obtain ⟨m, rfl⟩ : ∃ m, N = m + 1 := ⟨N - 1, (Nat.succ_pred_eq_of_pos hN).symm⟩
    rw [List.range_succ_eq_map]
    simp
  · intro i h1 hiN
    rw [hspec, List.get?_map, List.get?_range hiN]
    have hne : i ≠ 0 := Nat.pos_iff_ne_zero.mp h1
    simp [hne]

/-- Witness for c5_add_batch_invocation_count: three add_batch calls on a
two-parameter statement with all native statuses 0. -/
theorem c5_add_batch_invocation_count_witness :
    (((run_add_batches (BatchStmt.mk 2 false) 2 (fun _ => 0) (fun _ => 0) 3).2.map
        (fun call => call.1.count StmtNativeCall.addBatch)).sum = 3 - 1) ∧
    ((run_add_batches (BatchStmt.mk 2 false) 2 (fun _ => 0) (fun _ => 0) 3).2.get? 1 =
      some (StmtNativeCall.addBatch :: paramTrace 1 2, Except.ok 0)) := by
  have h := c5_add_batch_invocation_count 2 3 (fun _ => 0) (fun _ => 0)
    (fun _ => le_refl 0) (fun _ => le_refl 0) (by decide)
  exact ⟨h.2.1, h.2.2.2.1 1 (by decide) (by decide)⟩

end Mimerrust
